import Mathlib

set_option autoImplicit false

/-!
Shallow embedding of `bot.py` (OTP-ORANGECARRIER): a poller that logs into a
billing portal, fetches call-detail records (CDRs) through a structured JSON
endpoint with an HTML-table fallback, normalizes rows into canonical records,
deduplicates them against an in-memory seen set, and forwards new records to a
notification sink.

Network and parser effects are reified: each HTTP call made by
`fetch_cdr_for_account` is represented by a field of `FetchEnv` whose value is
either `.ok` (the call returned, carrying the already-parsed shape the Python
code extracts from the response) or `.error ()` (the underlying call raised).
HTML documents are modelled post-parse: the login page as the list of `input`
tags BeautifulSoup would find, the CDR page as the optional first table with
its rows' cell texts.
-/

namespace OrangeBot

/-! ### String primitives (Python `in`, `str.lower`, `str.endswith`) -/

/-- Helper: does `needle` occur at the head of the list? -/
def list_starts_with : List Char → List Char → Bool
  | _, [] => true
  | [], _ :: _ => false
  | a :: as, b :: bs => a == b && list_starts_with as bs

/-- Helper: Python substring test `needle in hay` over char lists. -/
def list_contains_sub (hay needle : List Char) : Bool :=
  if list_starts_with hay needle then true
  else
    match hay with
    | [] => false
    | _ :: t => list_contains_sub t needle

/-- Python `needle in hay` on strings. -/
def str_contains (hay needle : String) : Bool :=
  list_contains_sub hay.toList needle.toList

/-- Python `s.endswith(suffix)`. -/
def str_ends_with (s sfx : String) : Bool :=
  list_starts_with s.toList.reverse sfx.toList.reverse

/-- Lowercasing of one ASCII character, as Python `str.lower` acts on the
ASCII range (the marker substrings searched for are pure ASCII). -/
def py_lower_char (c : Char) : Char :=
  if 65 ≤ c.toNat ∧ c.toNat ≤ 90 then Char.ofNat (c.toNat + 32) else c

/-- Python `s.lower()`. -/
def py_lower (s : String) : String :=
  String.mk (s.toList.map py_lower_char)

/-- Python truthiness-based `a or b` on optional strings: `None` and the
empty string are falsy, so they fall through to the right operand
(`bot.py` lines 129-133 chain `.get` calls with `or`). -/
def py_or (a b : Option String) : Option String :=
  match a with
  | some s => if s = "" then b else some s
  | none => b

/-! ### Token Extractor (`extract_token_from_html`, bot.py lines 59-64) -/

/-- One `<input>` tag of the parsed login page: its optional `name` and
`value` attributes. -/
structure InputTag where
  name : Option String
  value : Option String
deriving DecidableEq

/-- Embedding of `extract_token_from_html`: `soup.find("input", {"name": "_token"})`
is the first input whose name attribute is the fixed constant; the token is
returned only when the `value` attribute is present and truthy (non-empty).
The Python function is total on documents (BeautifulSoup's `html.parser`
does not raise on malformed input; a document it cannot make sense of simply
yields no matching tag), which the model reflects by consuming the parsed
tag list. -/
def extract_token_from_html (inputs : List InputTag) : Option String :=
  match inputs.find? (fun i => i.name == some "_token") with
  | some inp =>
    match inp.value with
    | some v => if v = "" then none else some v
    | none => none
  | none => none

/-- Embedding of the login payload construction (bot.py lines 87-89): the
`_token` field is added only when a token was extracted. -/
def build_login_payload (email password : String) (token : Option String) :
    List (String × String) :=
  match token with
  | some t => [("email", email), ("password", password), ("_token", t)]
  | none => [("email", email), ("password", password)]

/-! ### Record Normalizer (bot.py lines 117-147 and 165-184) -/

/-- Embedding of `safe_text` (bot.py lines 67-71). Row cells are modelled by
their `str()` image, on which `str` is the identity and never raises, so the
`except` branch returning `""` is unreachable in the model. -/
def safe_text (x : String) : String :=
  x

/-- One element of the structured endpoint's records array: a columnar list
of cell texts, a keyed mapping, or any other JSON value (which the row loop
skips with `continue`, bot.py lines 134-135). -/
inductive JsonRow where
  | listRow (cols : List String)
  | dictRow (entries : List (String × String))
  | otherRow
deriving DecidableEq

/-- Value of a top-level field of the JSON object: a list of rows or some
non-list value (the `isinstance(j[k], list)` checks, bot.py lines 112-115). -/
inductive JField where
  | list (rows : List JsonRow)
  | nonList
deriving DecidableEq

/-- A parsed JSON response body: an object (with its optional `"data"` and
`"aaData"` fields, the only ones the code inspects) or a non-object value. -/
inductive JsonTop where
  | dict (dataF : Option JField) (aaDataF : Option JField)
  | nonDict
deriving DecidableEq

/-- Python `row.get(k)` on a keyed row. -/
def dict_get (entries : List (String × String)) (k : String) : Option String :=
  match entries.find? (fun p => p.1 == k) with
  | some p => some p.2
  | none => none

/-- Embedding of the top-level key probing (bot.py lines 110-115): use
`j["data"]` when present and a list, else `j["aaData"]` when present and a
list, else no data array; a non-dict `j` yields no data array. -/
def get_data_array : JsonTop → Option (List JsonRow)
  | .dict (some (.list rows)) _ => some rows
  | .dict _ (some (.list rows)) => some rows
  | _ => none

/-- Canonical record built by `fetch_cdr_for_account` (bot.py lines 139-147
and 176-184): a dict with keys id, cli, to, time, duration, type, account.
The `to` key is rendered `to_num` because `to` is reserved in Lean. -/
structure CDRRecord where
  id : String
  cli : String
  to_num : String
  time : String
  duration : String
  type : String
  account : String
deriving DecidableEq

/-- Embedding of the structured-row normalization (bot.py lines 118-147):
columnar rows read positions 0-4 with `""` defaults, keyed rows resolve each
field through an `or`-chain of key aliases, any other element is skipped
(`continue`). The dedupe id is the f-string `f"{email}_{cli}_{time_str}"`
of line 138. -/
def normalize_json_row (email : String) : JsonRow → Option CDRRecord
  | .listRow cols =>
    let cli := safe_text (cols.getD 0 "")
    let to_num := safe_text (cols.getD 1 "")
    let time_str := safe_text (cols.getD 2 "")
    let duration := safe_text (cols.getD 3 "")
    let call_type := safe_text (cols.getD 4 "")
    some ⟨email ++ "_" ++ cli ++ "_" ++ time_str,
          cli, to_num, time_str, duration, call_type, email⟩
  | .dictRow entries =>
    let cli := safe_text ((py_or (py_or (py_or (dict_get entries "cli")
      (dict_get entries "source")) (dict_get entries "caller"))
      (dict_get entries "from")).getD "")
    let to_num := safe_text ((py_or (dict_get entries "to")
      (dict_get entries "destination")).getD "")
    let time_str := safe_text ((py_or (py_or (dict_get entries "time")
      (dict_get entries "timestamp")) (dict_get entries "start_time")).getD "")
    let duration := safe_text ((dict_get entries "duration").getD "")
    let call_type := safe_text ((py_or (dict_get entries "type")
      (dict_get entries "status")).getD "")
    some ⟨email ++ "_" ++ cli ++ "_" ++ time_str,
          cli, to_num, time_str, duration, call_type, email⟩
  | .otherRow => none

/-- Embedding of the HTML-table row normalization (bot.py lines 166-184):
`cols` is the list of cell texts of one `<tr>`; an empty `cols` is skipped
(`if not cols: continue`), otherwise positions 0-4 are read with `""`
defaults and the dedupe id is the f-string of line 175. -/
def normalize_html_row (email : String) (cols : List String) : Option CDRRecord :=
  match cols with
  | [] => none
  | _ :: _ =>
    let cli := cols.getD 0 ""
    let to_num := cols.getD 1 ""
    let time_str := cols.getD 2 ""
    let duration := cols.getD 3 ""
    let call_type := cols.getD 4 ""
    some ⟨email ++ "_" ++ cli ++ "_" ++ time_str,
          cli, to_num, time_str, duration, call_type, email⟩

/-- Rows the structured loop turns into a record: Python lists and dicts;
every other element is skipped. -/
def is_raw_row : JsonRow → Bool
  | .listRow _ => true
  | .dictRow _ => true
  | .otherRow => false

/-! ### Session Authenticator success heuristic (bot.py lines 93-98) -/

/-- Embedding of the login-success check of bot.py line 95: the login failed
exactly when the lowercased response body contains neither `"logout"` nor
`"dashboard"` AND the final URL path still ends with `"/login"`. -/
def login_success (body path : String) : Bool :=
  let page_lower := py_lower body
  !(!(str_contains page_lower "logout" || str_contains page_lower "dashboard")
    && str_ends_with path "/login")

/-- Modelled from the spec: the spec's heuristic reads "success if the
response body contains an authenticated-area marker ... OR the final URL
path is no longer the login path", where the login path is the path
`"/login"` of the fixed login URL. Stated for refinement comparison with
`login_success`. -/
def login_success_spec (body path : String) : Bool :=
  str_contains (py_lower body) "logout" || str_contains (py_lower body) "dashboard"
    || path != "/login"

/-! ### CDR Fetcher (`fetch_cdr_for_account`, bot.py lines 74-192) -/

/-- The structured endpoint's response as the code observes it: HTTP status
and the JSON body (`none` models `api_resp.json()` raising on a body that is
not well-formed JSON). -/
structure ApiResp where
  status : Nat
  body : Option JsonTop
deriving DecidableEq

/-- The CDR listing page as parsed by BeautifulSoup: the optional first
`<table>`, given as its body rows' `<td>` texts. -/
structure HtmlPage where
  table : Option (List (List String))
deriving DecidableEq

/-- One cycle's network environment for `fetch_cdr_for_account`: the four
HTTP interactions in program order. `.error ()` means the underlying call
raised (network failure); `.ok` carries the parsed shape the code reads off
the response. -/
structure FetchEnv where
  login_page : Except Unit (List InputTag)
  login_post : Except Unit (String × String)
  api : Except Unit ApiResp
  html : Except Unit HtmlPage

/-- Observable outcome of one `fetch_cdr_for_account` run: the login POST
payload that was built, whether the login heuristic reported success, which
sub-strategies were reached, and the returned records. -/
structure FetchTrace where
  payload : List (String × String)
  loginOk : Bool
  apiAttempted : Bool
  htmlAttempted : Bool
  records : List CDRRecord
deriving DecidableEq

/-- Embedding of `fetch_cdr_for_account` (bot.py lines 74-192). The login
GET (line 81) and login POST (line 92) sit outside every `try`, so a raise
there propagates (`.error`); the structured strategy (lines 103-156) and the
HTML fallback (lines 158-190) each sit in a `try` whose handler degrades to
an empty contribution. The structured records are returned immediately when
non-empty (lines 148-150); otherwise the fallback's result (possibly empty)
is returned. -/
def fetch_cdr_for_account (env : FetchEnv) (email password : String) :
    Except Unit FetchTrace :=
  match env.login_page with
  | .error e => .error e
  | .ok inputs =>
    let token := extract_token_from_html inputs
    let payload := build_login_payload email password token
    match env.login_post with
    | .error e => .error e
    | .ok bp =>
      if login_success bp.1 bp.2 then
        let structured : List CDRRecord :=
          match env.api with
          | .error _ => []
          | .ok resp =>
            if resp.status == 200 then
              match resp.body with
              | none => []
              | some j =>
                match get_data_array j with
                | none => []
                | some rows => rows.filterMap (normalize_json_row email)
            else []
        match structured with
        | r :: rest =>
          .ok ⟨payload, true, true, false, r :: rest⟩
        | [] =>
          match env.html with
          | .error _ => .ok ⟨payload, true, true, true, []⟩
          | .ok page =>
            match page.table with
            | none => .ok ⟨payload, true, true, true, []⟩
            | some rows =>
              .ok ⟨payload, true, true, true,
                   rows.filterMap (normalize_html_row email)⟩
      else
        .ok ⟨payload, false, false, false, []⟩

/-- Replace the JSON body of the structured response, keeping everything
else of the environment unchanged. Used to state that a non-200 response's
body is never consulted. -/
def with_api_body (env : FetchEnv) (b : Option JsonTop) : FetchEnv :=
  { env with
    api :=
      match env.api with
      | .ok resp => .ok { resp with body := b }
      | .error e => .error e }

/-! ### Notification dispatch (`send_record_to_telegram`, bot.py lines 198-225,
and the dedupe loop of `account_worker`, bot.py lines 249-254) -/

/-- Environment of one `send_record_to_telegram` call: whether `CHAT_ID` is
configured, whether each of the (at most two) sends to the chat succeeds,
and whether `OWNER_ID` is configured. -/
structure SendEnv where
  chatConfigured : Bool
  attempt1Ok : Bool
  attempt2Ok : Bool
  ownerConfigured : Bool
deriving DecidableEq

/-- Observable outcome of one `send_record_to_telegram` call: how many sends
to the chat were attempted, whether an operator alert was attempted, and the
boolean return value. -/
structure SendTrace where
  attempts : Nat
  alertSent : Bool
  returned : Bool
deriving DecidableEq

/-- Embedding of `send_record_to_telegram` (bot.py lines 198-225): without a
configured chat it returns `False` with no attempt; otherwise it sends, on
exception retries once (line 218), and only when the retry also raises and
`OWNER_ID` is configured does it alert the operator (lines 220-222). The
failure branch returns `False` even when the retry succeeded. -/
def send_record_to_telegram (env : SendEnv) : SendTrace :=
  if !env.chatConfigured then ⟨0, false, false⟩
  else if env.attempt1Ok then ⟨1, false, true⟩
  else if env.attempt2Ok then ⟨2, false, false⟩
  else if env.ownerConfigured then ⟨2, true, false⟩
  else ⟨2, false, false⟩

/-- Embedding of one iteration of the dedupe loop of `account_worker`
(bot.py lines 249-254): a record whose id is in `seen_ids` is skipped;
otherwise its id is added first and the send happens after, its outcome
unused. The pair returned is the new seen set and the send trace (if any). -/
def worker_dispatch_step (seen : List String) (rec : CDRRecord)
    (env : SendEnv) : List String × Option SendTrace :=
  if seen.contains rec.id then (seen, none)
  else (rec.id :: seen, some (send_record_to_telegram env))

/-- Embedding of the whole dedupe loop of `account_worker` (bot.py lines
249-254) over one fetched record list: threads `seen_ids` through the
iterations and collects the records that were dispatched. -/
def process_records : List String → List CDRRecord →
    List String × List CDRRecord
  | seen, [] => (seen, [])
  | seen, r :: rest =>
    if seen.contains r.id then process_records seen rest
    else
      let p := process_records (r.id :: seen) rest
      (p.1, r :: p.2)

/-! ### Rows irrespective of sub-strategy (for the identity property) -/

/-- A raw row from either sub-strategy: a structured-endpoint element or an
HTML table row's cell texts. -/
inductive AnyRow where
  | json (r : JsonRow)
  | html (cols : List String)
deriving DecidableEq

/-- Normalization of a row of either sub-strategy, as performed inline by
`fetch_cdr_for_account` on each path. -/
def any_normalize (email : String) : AnyRow → Option CDRRecord
  | .json r => normalize_json_row email r
  | .html cols => normalize_html_row email cols

/-! ### Helper lemmas -/

/-- The structured row loop produces a record exactly for the list- and
dict-shaped elements. -/
theorem normalize_json_row_isSome (email : String) (r : JsonRow) :
    (normalize_json_row email r).isSome = is_raw_row r := by
  cases r <;> rfl

/-- The structured strategy yields exactly one record per list- or
dict-shaped element of the data array. -/
theorem length_filterMap_normalize (email : String) (rows : List JsonRow) :
    (rows.filterMap (normalize_json_row email)).length
      = (rows.filter is_raw_row).length := by
  induction rows with
  | nil => rfl
  | cons r rest ih =>
    cases r <;> simp [List.filterMap_cons, List.filter_cons,
      normalize_json_row, is_raw_row, ih]

/-- Every record produced by either normalization path carries the identity
obtained by joining the account identifier, the caller field and the
timestamp field with `"_"`. -/
theorem any_normalize_id (email : String) (a : AnyRow) (r : CDRRecord)
    (h : any_normalize email a = some r) :
    r.id = email ++ "_" ++ r.cli ++ "_" ++ r.time := by
  cases a with
  | json jr =>
    cases jr with
    | listRow cols =>
      simp only [any_normalize, normalize_json_row] at h
      cases h
      rfl
    | dictRow entries =>
      simp only [any_normalize, normalize_json_row] at h
      cases h
      rfl
    | otherRow => simp [any_normalize, normalize_json_row] at h
  | html cols =>
    cases cols with
    | nil => simp [any_normalize, normalize_html_row] at h
    | cons c cs =>
      simp only [any_normalize, normalize_html_row] at h
      cases h
      rfl

/-- Membership in the seen set is preserved by the dedupe loop: nothing is
ever removed from `seen_ids`. -/
theorem process_records_contains_mono (records : List CDRRecord) :
    ∀ (seen : List String) (x : String), seen.contains x = true →
      (process_records seen records).1.contains x = true := by
  induction records with
  | nil => intro seen x h; exact h
  | cons r rest ih =>
    intro seen x h
    simp only [process_records]
    split
    · exact ih seen x h
    · exact ih (r.id :: seen) x
        (by simp only [List.contains_cons, h, Bool.or_true])

/-- After the dedupe loop runs, the identity of every processed record is in
the seen set. -/
theorem process_records_mem_seen (records : List CDRRecord) :
    ∀ (seen : List String) (r : CDRRecord), r ∈ records →
      (process_records seen records).1.contains r.id = true := by
  induction records with
  | nil => intro seen r h; cases h
  | cons a rest ih =>
    intro seen r h
    simp only [process_records]
    rcases List.mem_cons.mp h with h1 | h2
    · subst h1
      split
      · next hc => exact process_records_contains_mono rest seen r.id hc
      · exact process_records_contains_mono rest (r.id :: seen) r.id
          (by simp [List.contains_cons])
    · split
      · exact ih seen r h2
      · exact ih (a.id :: seen) r h2

/-- A record whose identity is already in the seen set is never dispatched
by the dedupe loop. -/
theorem process_records_all_seen (records : List CDRRecord) :
    ∀ (seen : List String), (∀ r ∈ records, seen.contains r.id = true) →
      (process_records seen records).2 = [] := by
  induction records with
  | nil => intro seen _; rfl
  | cons a rest ih =>
    intro seen h
    have ha := h a (List.mem_cons_self a rest)
    simp only [process_records, ha, if_true]
    exact ih seen (fun r hr => h r (List.mem_cons_of_mem a hr))

/-- The login heuristic, rewritten as the disjunction the code's early
return encodes. -/
theorem login_success_eq (body path : String) :
    login_success body path
      = (str_contains (py_lower body) "logout"
         || str_contains (py_lower body) "dashboard"
         || !(str_ends_with path "/login")) := by
  simp only [login_success]
  cases str_contains (py_lower body) "logout" <;>
    cases str_contains (py_lower body) "dashboard" <;>
      cases str_ends_with path "/login" <;> rfl

/-! ### Claims -/

/-- Claim C2 is refuted by this run: the HTML fallback sees a table whose
single row has only 3 cells, yet one canonical record is emitted for it
(with empty duration and type) instead of the row being skipped. -/
theorem claim_C2_counterexample :
    fetch_cdr_for_account
      ⟨.ok [], .ok ("welcome logout", "/dashboard"), .error (),
       .ok ⟨some [["100", "200", "2024-01-01 10:00:00"]]⟩⟩ "a@x.com" "pw"
    = .ok ⟨[("email", "a@x.com"), ("password", "pw")], true, true, true,
        [⟨"a@x.com_100_2024-01-01 10:00:00", "100", "200",
          "2024-01-01 10:00:00", "", "", "a@x.com"⟩]⟩ := rfl

/-- Claim C2 as amended: normalization rejects a row only for missing
structure — an HTML table row with no cells at all, or a structured element
that is neither a list nor a mapping. Any row with at least one field is
normalized, with missing trailing fields defaulted to the empty string. -/
theorem claim_C2 (email : String) (cols : List String) (r : JsonRow) :
    (normalize_html_row email cols = none ↔ cols = []) ∧
    (normalize_json_row email r = none ↔ r = JsonRow.otherRow) := by
  constructor
  · cases cols <;> simp [normalize_html_row]
  · cases r <;> simp [normalize_json_row]

/-- Claim C3: the record identity is a pure function of the account
identifier, the caller field and the timestamp field — any two rows, of any
shape (columnar or keyed) from either sub-strategy (structured JSON or HTML
table), that normalize for the same account with equal caller and timestamp
values receive the same identity string. -/
theorem claim_C3 (email : String) (a1 a2 : AnyRow) (r1 r2 : CDRRecord)
    (h1 : any_normalize email a1 = some r1)
    (h2 : any_normalize email a2 = some r2)
    (hcli : r1.cli = r2.cli) (htime : r1.time = r2.time) :
    r1.id = r2.id := by
  rw [any_normalize_id email a1 r1 h1, any_normalize_id email a2 r2 h2,
    hcli, htime]

/-- Witness for claim C3: a keyed JSON row and a columnar HTML row with the
same caller and timestamp normalize to the same identity. -/
theorem claim_C3_witness :
    any_normalize "a@x.com"
        (.json (.dictRow [("cli", "100"), ("time", "2024-01-01 10:00:00")]))
      = some ⟨"a@x.com_100_2024-01-01 10:00:00", "100", "",
              "2024-01-01 10:00:00", "", "", "a@x.com"⟩ ∧
    any_normalize "a@x.com" (.html ["100", "999", "2024-01-01 10:00:00"])
      = some ⟨"a@x.com_100_2024-01-01 10:00:00", "100", "999",
              "2024-01-01 10:00:00", "", "", "a@x.com"⟩ ∧
    CDRRecord.id ⟨"a@x.com_100_2024-01-01 10:00:00", "100", "",
        "2024-01-01 10:00:00", "", "", "a@x.com"⟩
      = CDRRecord.id ⟨"a@x.com_100_2024-01-01 10:00:00", "100", "999",
          "2024-01-01 10:00:00", "", "", "a@x.com"⟩ :=
  ⟨rfl, rfl,
    claim_C3 "a@x.com"
      (.json (.dictRow [("cli", "100"), ("time", "2024-01-01 10:00:00")]))
      (.html ["100", "999", "2024-01-01 10:00:00"])
      ⟨"a@x.com_100_2024-01-01 10:00:00", "100", "",
        "2024-01-01 10:00:00", "", "", "a@x.com"⟩
      ⟨"a@x.com_100_2024-01-01 10:00:00", "100", "999",
        "2024-01-01 10:00:00", "", "", "a@x.com"⟩
      rfl rfl rfl rfl⟩

/-- Claim C5: the dedupe pipeline is idempotent — feeding the same record
list through the dedupe loop a second time, starting from the seen set the
first run produced, dispatches nothing. -/
theorem claim_C5 (seen : List String) (records : List CDRRecord) :
    (process_records (process_records seen records).1 records).2 = [] :=
  process_records_all_seen records (process_records seen records).1
    (fun r hr => process_records_mem_seen records seen r hr)

/-- Claim C9: timestamp handling is pure pass-through — for every raw
timestamp string, parseable or not, the produced record's timestamp field
equals the raw string unchanged and the row is not rejected; this holds on
the columnar JSON path, the keyed JSON path and the HTML path (the code
defines no source-format reformatting, so no timestamp string is ever
rewritten). -/
theorem claim_C9 (email c0 c1 t d ty : String) :
    (normalize_json_row email (.listRow [c0, c1, t, d, ty])).map CDRRecord.time
      = some t ∧
    (normalize_json_row email (.dictRow [("cli", c0), ("to", c1), ("time", t),
        ("duration", d), ("type", ty)])).map CDRRecord.time = some t ∧
    (normalize_html_row email [c0, c1, t, d, ty]).map CDRRecord.time = some t ∧
    (normalize_html_row email [c0, c1, t]).map CDRRecord.time = some t := by
  refine ⟨rfl, ?_, rfl, rfl⟩
  by_cases h : t = "" <;>
    simp [normalize_json_row, dict_get, py_or, safe_text, h]

/-- Claim C4 is refuted by this run: the login-page GET raises (a network
failure), and `fetch_cdr_for_account` propagates the exception to its caller
instead of returning a list — the GET of bot.py line 81 sits outside every
`try` block. -/
theorem claim_C4_counterexample :
    fetch_cdr_for_account ⟨.error (), .ok ("", ""), .error (), .error ()⟩
      "a@x.com" "pw" = .error () := rfl

/-- Claim C4 as amended: exceptions in the two fetch sub-strategies (the
structured GET/parse and the HTML GET/parse) are caught inside the function
and degrade to an empty contribution, so whenever the two login-phase
requests themselves return, the function returns a list and never raises —
but an exception in the login GET or login POST propagates to the caller
(where `account_worker`'s own try/except absorbs it). -/
theorem claim_C4 (env : FetchEnv) (email password : String)
    (inputs : List InputTag) (bp : String × String)
    (hpage : env.login_page = .ok inputs)
    (hpost : env.login_post = .ok bp) :
    ∃ t, fetch_cdr_for_account env email password = .ok t := by
  obtain ⟨lp, lpo, api, html⟩ := env
  simp only at hpage hpost
  subst hpage hpost
  simp only [fetch_cdr_for_account]
  split
  · split
    · exact ⟨_, rfl⟩
    · cases html with
      | error e => exact ⟨_, rfl⟩
      | ok page =>
        cases page with
        | mk tb =>
          cases tb with
          | none => exact ⟨_, rfl⟩
          | some rows => exact ⟨_, rfl⟩
  · exact ⟨_, rfl⟩

/-- Witness for claim C4: a cycle whose two login calls returned but whose
structured and HTML calls both raised still yields a list. -/
theorem claim_C4_witness :
    ∃ t, fetch_cdr_for_account
      ⟨.ok [], .ok ("", "/login"), .error (), .error ()⟩ "a@x.com" "pw"
      = .ok t :=
  claim_C4 ⟨.ok [], .ok ("", "/login"), .error (), .error ()⟩ "a@x.com" "pw"
    [] ("", "/login") rfl rfl

/-- Claim C6 is refuted by this run: the final URL path `"/account/login"`
is not the login path `"/login"`, so the claimed heuristic reports success,
yet the code (which tests `path.endswith("/login")`, bot.py line 95)
reports failure and returns an empty list without attempting either fetch
strategy — even though the structured response held a non-empty records
list. -/
theorem claim_C6_counterexample :
    (fetch_cdr_for_account
      ⟨.ok [], .ok ("", "/account/login"),
       .ok ⟨200, some (.dict (some (.list [.listRow ["1", "2", "t", "3", "a"]]))
         none)⟩,
       .ok ⟨some [["9"]]⟩⟩ "a@x.com" "pw"
      = .ok ⟨[("email", "a@x.com"), ("password", "pw")], false, false, false,
          []⟩) ∧
    login_success_spec "" "/account/login" = true :=
  ⟨rfl, rfl⟩

/-- Claim C6 as amended: authentication is reported successful if and only
if the lowercased post-login body contains `"logout"` or `"dashboard"`, or
the final URL path does not end with `"/login"`; when it reports failure,
neither fetch strategy is attempted and the record list comes back empty. -/
theorem claim_C6 (env : FetchEnv) (email password : String)
    (inputs : List InputTag) (bp : String × String) (t : FetchTrace)
    (hpage : env.login_page = .ok inputs)
    (hpost : env.login_post = .ok bp)
    (hfetch : fetch_cdr_for_account env email password = .ok t) :
    (t.loginOk = (str_contains (py_lower bp.1) "logout"
        || str_contains (py_lower bp.1) "dashboard"
        || !(str_ends_with bp.2 "/login"))) ∧
    (t.loginOk = false →
      t.apiAttempted = false ∧ t.htmlAttempted = false ∧ t.records = []) := by
  obtain ⟨lp, lpo, api, html⟩ := env
  simp only at hpage hpost
  subst hpage hpost
  rw [← login_success_eq]
  simp only [fetch_cdr_for_account] at hfetch
  cases hlog : login_success bp.1 bp.2 with
  | false =>
    simp only [hlog, Bool.false_eq_true, if_false] at hfetch
    injection hfetch with h
    subst h
    exact ⟨rfl, fun _ => ⟨rfl, rfl, rfl⟩⟩
  | true =>
    simp only [hlog, if_true] at hfetch
    split at hfetch
    · injection hfetch with h
      subst h
      exact ⟨rfl, fun hff => nomatch hff⟩
    · split at hfetch
      · injection hfetch with h
        subst h
        exact ⟨rfl, fun hff => nomatch hff⟩
      · split at hfetch
        · injection hfetch with h
          subst h
          exact ⟨rfl, fun hff => nomatch hff⟩
        · injection hfetch with h
          subst h
          exact ⟨rfl, fun hff => nomatch hff⟩

/-- Witness for claim C6 (amended): a cycle whose post-login body is empty
and whose final path is exactly `"/login"` reports failure, attempts no
strategy and returns no records. -/
theorem claim_C6_witness :
    (FetchTrace.loginOk
        ⟨[("email", "a@x.com"), ("password", "pw")], false, false, false, []⟩
      = (str_contains (py_lower "") "logout"
         || str_contains (py_lower "") "dashboard"
         || !(str_ends_with "/login" "/login"))) ∧
    (FetchTrace.loginOk
        ⟨[("email", "a@x.com"), ("password", "pw")], false, false, false, []⟩
        = false →
      FetchTrace.apiAttempted
          ⟨[("email", "a@x.com"), ("password", "pw")], false, false, false, []⟩
        = false ∧
      FetchTrace.htmlAttempted
          ⟨[("email", "a@x.com"), ("password", "pw")], false, false, false, []⟩
        = false ∧
      FetchTrace.records
          ⟨[("email", "a@x.com"), ("password", "pw")], false, false, false, []⟩
        = []) :=
  claim_C6 ⟨.ok [], .ok ("", "/login"), .error (), .error ()⟩ "a@x.com" "pw"
    [] ("", "/login")
    ⟨[("email", "a@x.com"), ("password", "pw")], false, false, false, []⟩
    rfl rfl rfl

/-- Claim C1: when the structured endpoint returns status 200 with a
well-formed JSON object holding a non-empty records list under a recognized
key, and normalizing it yields at least one record, `fetch_cdr_for_account`
returns exactly the per-row normalizations — one canonical record for every
list- or dict-shaped row — and the HTML fallback is never reached. -/
theorem claim_C1 (env : FetchEnv) (email password : String)
    (inputs : List InputTag) (bp : String × String) (resp : ApiResp)
    (j : JsonTop) (rows : List JsonRow) (t : FetchTrace)
    (hpage : env.login_page = .ok inputs)
    (hpost : env.login_post = .ok bp)
    (hlog : login_success bp.1 bp.2 = true)
    (hapi : env.api = .ok resp)
    (hstat : resp.status = 200)
    (hbody : resp.body = some j)
    (harr : get_data_array j = some rows)
    (_hne : rows ≠ [])
    (hyield : rows.filterMap (normalize_json_row email) ≠ [])
    (hfetch : fetch_cdr_for_account env email password = .ok t) :
    t.records = rows.filterMap (normalize_json_row email) ∧
    t.records.length = (rows.filter is_raw_row).length ∧
    t.htmlAttempted = false := by
  obtain ⟨lp, lpo, api, html⟩ := env
  simp only at hpage hpost hapi
  subst hpage hpost hapi
  obtain ⟨st, bd⟩ := resp
  simp only at hstat hbody
  subst hstat hbody
  simp only [fetch_cdr_for_account, hlog, if_true, beq_self_eq_true, harr]
    at hfetch
  rcases hF : rows.filterMap (normalize_json_row email) with _ | ⟨r, rest⟩
  · exact absurd hF hyield
  · rw [hF] at hfetch
    injection hfetch with h
    subst h
    refine ⟨rfl, ?_, rfl⟩
    show (r :: rest).length = (rows.filter is_raw_row).length
    rw [← hF, length_filterMap_normalize]

/-- Witness for claim C1: a 200-status structured response whose `"data"`
array holds a columnar row, a non-row scalar (skipped) and a keyed row
yields exactly those two records, without touching the HTML page. -/
theorem claim_C1_witness :
    FetchTrace.records
        ⟨[("email", "a@x.com"), ("password", "pw")], true, true, false,
         [⟨"a@x.com_1_t", "1", "2", "t", "3", "a", "a@x.com"⟩,
          ⟨"a@x.com_7_u", "7", "", "u", "", "", "a@x.com"⟩]⟩
      = List.filterMap (normalize_json_row "a@x.com")
          [.listRow ["1", "2", "t", "3", "a"], .otherRow,
           .dictRow [("cli", "7"), ("time", "u")]] ∧
    (FetchTrace.records
        ⟨[("email", "a@x.com"), ("password", "pw")], true, true, false,
         [⟨"a@x.com_1_t", "1", "2", "t", "3", "a", "a@x.com"⟩,
          ⟨"a@x.com_7_u", "7", "", "u", "", "", "a@x.com"⟩]⟩).length
      = (List.filter is_raw_row
          [.listRow ["1", "2", "t", "3", "a"], .otherRow,
           .dictRow [("cli", "7"), ("time", "u")]]).length ∧
    FetchTrace.htmlAttempted
        ⟨[("email", "a@x.com"), ("password", "pw")], true, true, false,
         [⟨"a@x.com_1_t", "1", "2", "t", "3", "a", "a@x.com"⟩,
          ⟨"a@x.com_7_u", "7", "", "u", "", "", "a@x.com"⟩]⟩
      = false :=
  claim_C1
    ⟨.ok [], .ok ("has logout", "/home"),
     .ok ⟨200, some (.dict (some (.list [.listRow ["1", "2", "t", "3", "a"],
        .otherRow, .dictRow [("cli", "7"), ("time", "u")]])) none)⟩,
     .ok ⟨some [["9"]]⟩⟩
    "a@x.com" "pw" [] ("has logout", "/home")
    ⟨200, some (.dict (some (.list [.listRow ["1", "2", "t", "3", "a"],
       .otherRow, .dictRow [("cli", "7"), ("time", "u")]])) none)⟩
    (.dict (some (.list [.listRow ["1", "2", "t", "3", "a"],
       .otherRow, .dictRow [("cli", "7"), ("time", "u")]])) none)
    [.listRow ["1", "2", "t", "3", "a"], .otherRow,
     .dictRow [("cli", "7"), ("time", "u")]]
    ⟨[("email", "a@x.com"), ("password", "pw")], true, true, false,
     [⟨"a@x.com_1_t", "1", "2", "t", "3", "a", "a@x.com"⟩,
      ⟨"a@x.com_7_u", "7", "", "u", "", "", "a@x.com"⟩]⟩
    rfl rfl rfl rfl rfl rfl rfl (by decide) (by decide) rfl

/-- Claim C10: a structured response with any status other than 200 sends
the Fetcher to the HTML fallback, and its body is never parsed — the whole
outcome is unchanged under replacing that body by anything else, including
well-formed JSON with a non-empty records list. -/
theorem claim_C10 (env : FetchEnv) (email password : String)
    (inputs : List InputTag) (bp : String × String) (resp : ApiResp)
    (b : Option JsonTop) (t : FetchTrace)
    (hpage : env.login_page = .ok inputs)
    (hpost : env.login_post = .ok bp)
    (hlog : login_success bp.1 bp.2 = true)
    (hapi : env.api = .ok resp)
    (hstat : resp.status ≠ 200)
    (hfetch : fetch_cdr_for_account env email password = .ok t) :
    t.htmlAttempted = true ∧
    fetch_cdr_for_account (with_api_body env b) email password
      = fetch_cdr_for_account env email password := by
  obtain ⟨lp, lpo, api, html⟩ := env
  simp only at hpage hpost hapi
  subst hpage hpost hapi
  obtain ⟨st, bd⟩ := resp
  simp only at hstat
  have hbeq : (st == 200) = false := beq_eq_false_iff_ne.mpr hstat
  constructor
  · simp only [fetch_cdr_for_account, hlog, if_true, hbeq, Bool.false_eq_true,
      if_false] at hfetch
    split at hfetch
    all_goals try split at hfetch
    all_goals (injection hfetch with h; subst h; rfl)
  · simp only [fetch_cdr_for_account, with_api_body, hlog, if_true, hbeq,
      Bool.false_eq_true, if_false]

/-- Witness for claim C10: a 404 response whose body is a well-formed JSON
object with a non-empty `"data"` list is ignored and the table row of the
HTML page is returned instead, identically whether that body is kept or
replaced by `none`. -/
theorem claim_C10_witness :
    FetchTrace.htmlAttempted
        ⟨[("email", "a@x.com"), ("password", "pw")], true, true, true,
         [⟨"a@x.com_9_", "9", "8", "", "", "", "a@x.com"⟩]⟩
      = true ∧
    fetch_cdr_for_account
        (with_api_body
          ⟨.ok [], .ok ("has logout", "/home"),
           .ok ⟨404, some (.dict (some (.list [.listRow ["1", "2", "t", "3", "a"]]))
             none)⟩,
           .ok ⟨some [["9", "8"]]⟩⟩ none)
        "a@x.com" "pw"
      = fetch_cdr_for_account
          ⟨.ok [], .ok ("has logout", "/home"),
           .ok ⟨404, some (.dict (some (.list [.listRow ["1", "2", "t", "3", "a"]]))
             none)⟩,
           .ok ⟨some [["9", "8"]]⟩⟩
          "a@x.com" "pw" :=
  claim_C10
    ⟨.ok [], .ok ("has logout", "/home"),
     .ok ⟨404, some (.dict (some (.list [.listRow ["1", "2", "t", "3", "a"]]))
       none)⟩,
     .ok ⟨some [["9", "8"]]⟩⟩
    "a@x.com" "pw" [] ("has logout", "/home")
    ⟨404, some (.dict (some (.list [.listRow ["1", "2", "t", "3", "a"]])) none)⟩
    none
    ⟨[("email", "a@x.com"), ("password", "pw")], true, true, true,
     [⟨"a@x.com_9_", "9", "8", "", "", "", "a@x.com"⟩]⟩
    rfl rfl rfl rfl (by decide) rfl

/-- Claim C7: on delivery failure exactly one retry happens (two sends in
total); the operator alert fires exactly when the chat is configured, both
sends fail and an operator id is configured — in particular never when the
retry succeeds; and the worker marks the identity seen exactly once before
dispatching, independently of the send outcome, never removes it, and never
re-dispatches a record once marked, so a failed send is not retried on a
later cycle. -/
theorem claim_C7 (env env2 : SendEnv) (seen : List String) (rec : CDRRecord) :
    (env.chatConfigured = true → env.attempt1Ok = false →
      (send_record_to_telegram env).attempts = 2) ∧
    ((send_record_to_telegram env).alertSent = true ↔
      (env.chatConfigured = true ∧ env.attempt1Ok = false ∧
       env.attempt2Ok = false ∧ env.ownerConfigured = true)) ∧
    (env.attempt1Ok = false → env.attempt2Ok = true →
      (send_record_to_telegram env).alertSent = false) ∧
    ((worker_dispatch_step seen rec env).1
      = (worker_dispatch_step seen rec env2).1) ∧
    (seen.contains rec.id = false →
      ((worker_dispatch_step seen rec env).1).count rec.id = 1) ∧
    (∀ x, seen.contains x = true →
      ((worker_dispatch_step seen rec env).1).contains x = true) ∧
    ((worker_dispatch_step ((worker_dispatch_step seen rec env).1) rec
        env2).2 = none) := by
  obtain ⟨c, a1, a2, ow⟩ := env
  refine ⟨?_, ?_, ?_, ?_, ?_, ?_, ?_⟩
  · cases c <;> cases a1 <;> cases a2 <;> cases ow <;>
      simp [send_record_to_telegram]
  · cases c <;> cases a1 <;> cases a2 <;> cases ow <;>
      simp [send_record_to_telegram]
  · cases c <;> cases a1 <;> cases a2 <;> cases ow <;>
      simp [send_record_to_telegram]
  · unfold worker_dispatch_step
    split <;> rfl
  · intro h
    have hmem : rec.id ∉ seen := by
      intro hm
      exact absurd (h.symm.trans (List.elem_iff.mpr hm)) Bool.false_ne_true
    simp only [worker_dispatch_step, h, Bool.false_eq_true, if_false]
    simp [List.count_cons_self, List.count_eq_zero.mpr hmem]
  · intro x hx
    unfold worker_dispatch_step
    split
    · exact hx
    · simp only [List.contains_cons, hx, Bool.or_true]
  · unfold worker_dispatch_step
    split
    · next hc => simp only [hc, if_true]
    · simp only [List.contains_cons, BEq.refl, Bool.true_or, if_true]

/-- Witness for claim C7: a run where the first send fails and the retry
succeeds makes exactly two attempts and raises no operator alert, and
dispatching a fresh record marks it seen exactly once. -/
theorem claim_C7_witness :
    (send_record_to_telegram ⟨true, false, true, true⟩).attempts = 2 ∧
    (send_record_to_telegram ⟨true, false, true, true⟩).alertSent = false ∧
    ((worker_dispatch_step []
        ⟨"a@x.com_1_t", "1", "2", "t", "3", "a", "a@x.com"⟩
        ⟨true, false, true, true⟩).1).count "a@x.com_1_t" = 1 :=
  ⟨(claim_C7 ⟨true, false, true, true⟩ ⟨true, true, true, true⟩ []
      ⟨"a@x.com_1_t", "1", "2", "t", "3", "a", "a@x.com"⟩).1 rfl rfl,
   (claim_C7 ⟨true, false, true, true⟩ ⟨true, true, true, true⟩ []
      ⟨"a@x.com_1_t", "1", "2", "t", "3", "a", "a@x.com"⟩).2.2.1 rfl rfl,
   (claim_C7 ⟨true, false, true, true⟩ ⟨true, true, true, true⟩ []
      ⟨"a@x.com_1_t", "1", "2", "t", "3", "a", "a@x.com"⟩).2.2.2.2.1 rfl⟩

/-- Claim C8: the Token Extractor returns the value attribute of the first
input named `_token` exactly when that value is present and non-empty, and
absent otherwise — in particular when no input matches (which is also how a
parse failure surfaces, since the parser does not raise); and an absent
token makes the login payload omit the `_token` field while login still
proceeds with email and password. -/
theorem claim_C8 (pre post : List InputTag) (inp : InputTag)
    (inputs : List InputTag) (email password : String) :
    ((∀ i ∈ pre, i.name ≠ some "_token") → inp.name = some "_token" →
      extract_token_from_html (pre ++ inp :: post)
        = (match inp.value with
           | some v => if v = "" then none else some v
           | none => none)) ∧
    ((∀ i ∈ inputs, i.name ≠ some "_token") →
      extract_token_from_html inputs = none) ∧
    (extract_token_from_html inputs = none →
      build_login_payload email password (extract_token_from_html inputs)
        = [("email", email), ("password", password)]) := by
  refine ⟨?_, ?_, ?_⟩
  · intro hpre hinp
    have hfind : (pre ++ inp :: post).find? (fun i => i.name == some "_token")
        = some inp := by
      rw [List.find?_append]
      have h1 : pre.find? (fun i => i.name == some "_token") = none :=
        List.find?_eq_none.mpr (fun x hx => by simp [hpre x hx])
      rw [h1, Option.none_or]
      exact List.find?_cons_of_pos post (by simp [hinp])
    unfold extract_token_from_html
    rw [hfind]
  · intro hnone
    have hfind : inputs.find? (fun i => i.name == some "_token") = none :=
      List.find?_eq_none.mpr (fun x hx => by simp [hnone x hx])
    unfold extract_token_from_html
    rw [hfind]
  · intro h
    rw [h]
    rfl

/-- Witness for claim C8: a login page whose token input comes second still
yields its value; a page with no matching input yields no token and the
payload then carries only email and password. -/
theorem claim_C8_witness :
    extract_token_from_html
        [⟨some "email", some "x"⟩, ⟨some "_token", some "tok123"⟩]
      = some "tok123" ∧
    extract_token_from_html [⟨some "email", some "x"⟩] = none ∧
    build_login_payload "a@x.com" "pw"
        (extract_token_from_html [⟨some "email", some "x"⟩])
      = [("email", "a@x.com"), ("password", "pw")] :=
  ⟨(claim_C8 [⟨some "email", some "x"⟩] [] ⟨some "_token", some "tok123"⟩
      [⟨some "email", some "x"⟩] "a@x.com" "pw").1 (by decide) rfl,
   (claim_C8 [⟨some "email", some "x"⟩] [] ⟨some "_token", some "tok123"⟩
      [⟨some "email", some "x"⟩] "a@x.com" "pw").2.1 (by decide),
   (claim_C8 [⟨some "email", some "x"⟩] [] ⟨some "_token", some "tok123"⟩
      [⟨some "email", some "x"⟩] "a@x.com" "pw").2.2
     ((claim_C8 [⟨some "email", some "x"⟩] [] ⟨some "_token", some "tok123"⟩
        [⟨some "email", some "x"⟩] "a@x.com" "pw").2.1 (by decide))⟩

end OrangeBot
